import Mathlib

/-!
Verification development for the NiftyRent SDK ownership resolver
(src/index.ts).  The TypeScript class NiftyRent is embedded shallowly:

* a callable contract handle is reduced to its account id, which is all a
  view-only request uses;
* the two remote view methods (nft_token on the NFT contract and
  get_borrower_by_contract_and_token on a rental proxy) are supplied by a
  Chain oracle, each call either failing with an error value or returning
  a result;
* every public resolution operation returns an Outcome: the JS promise
  result (Except, errors being the thrown values), the list of remote
  view queries actually issued, and the resolver state after the call,
  threaded explicitly so that absence of mutation is a theorem and not a
  modelling assumption;
* JS null/undefined flowing out of the borrower fetch is modelled as
  none, a concrete string as some, so the value is carried verbatim;
* the membership test in is_rented uses the JS `in` operator on an array,
  which tests property keys of the array object, not membership; jsArrayIn
  reproduces that.
-/

namespace NiftyRentSdk

/-- A callable contract handle; for the view-only requests made by the SDK
only the contract account id is relevant. -/
structure Contract where
  contractId : String
  deriving DecidableEq, Repr

/-- The record returned by the nft_token view method; the SDK only reads
the owner_id field. -/
structure TokenRecord where
  owner_id : String
  deriving DecidableEq, Repr

/-- A remote view query issued during a resolution operation. -/
inductive Query where
  | nftToken (contractId tokenId : String)
  | getBorrower (proxyId contractId tokenId : String)
  deriving DecidableEq, Repr

/-- The remote chain: responses of the two view methods.  nftToken takes
the NFT contract id and the token id; getBorrower takes the rental proxy
id, the contract_id argument and the token_id argument.  A borrower of
none models a JS null/undefined response. -/
structure Chain where
  nftToken : String → String → Except String TokenRecord
  getBorrower : String → String → String → Except String (Option String)

/-- Configuration struct for a new NiftyRent object (all fields optional). -/
structure Config where
  networkId : Option String := none
  rpcNodeUrl : Option String := none
  defaultContractAddr : Option String := none
  allowedRentalProxies : Option (List String) := none

/-- defaultRpcNodeUrl from src/index.ts. -/
def defaultRpcNodeUrl (networkId : String) : String :=
  if networkId = "mainnet" then "https://rpc.mainnet.near.org"
  else "https://rpc.testnet.near.org"

/-- defaultRentalProxies from src/index.ts. -/
def defaultRentalProxies (networkId : String) : List String :=
  if networkId = "mainnet" then ["nft-rental.near"] else ["nft-rental.testnet"]

/-- JS truthiness of a string-or-undefined value: undefined and the empty
string are falsy. -/
def jsTruthy : Option String → Bool
  | none => false
  | some s => s ≠ ""

/-- JS (x || d) for a string-or-undefined x. -/
def jsOrStr (x : Option String) (d : String) : String :=
  match x with
  | none => d
  | some s => if s = "" then d else s

/-- JS (key in arr) for a dense array literal of strings: true iff key is
a property key of the array object.  The own property keys are the decimal
indices 0 .. arr.length - 1 and the string length.  Keys inherited from
Array.prototype (method names such as includes) also satisfy the JS `in`
operator; they are not account-id-shaped and are omitted from the model,
which therefore under-approximates the set of keys answering true. -/
def jsArrayIn (key : String) (arr : List String) : Bool :=
  (List.range arr.length).any (fun i => toString i == key) || key == "length"

/-- The NiftyRent resolver state.  The JS Map rentalContracts is modelled
as an association list with the most recent binding first: Map.set is a
cons and Map.get is List.lookup, which is observationally the behaviour
of the JS Map through its get method.  nearApi is some () once init has
connected. -/
structure NiftyRent where
  networkId : String
  rpcNodeUrl : String
  defaultContractAddr : Option String
  allowedRentalProxies : List String
  nearApi : Option Unit
  defaultNftContract : Option Contract
  rentalContracts : List (String × Contract)
  deriving Repr

/-- The constructor of class NiftyRent: fills defaults, leaves nearApi,
defaultNftContract and rentalContracts at their pre-init values. -/
def mkNiftyRent (config : Config) : NiftyRent :=
  let networkId := jsOrStr config.networkId "testnet"
  { networkId := networkId
    rpcNodeUrl := jsOrStr config.rpcNodeUrl (defaultRpcNodeUrl networkId)
    defaultContractAddr := config.defaultContractAddr
    allowedRentalProxies := config.allowedRentalProxies.getD (defaultRentalProxies networkId)
    nearApi := none
    defaultNftContract := none
    rentalContracts := [] }

/-- internalInitNftContract: throws before init, otherwise builds a
call-scoped handle for the given address. -/
def NiftyRent.internalInitNftContract (self : NiftyRent) (contractAddr : String) :
    Except String Contract :=
  match self.nearApi with
  | none => .error "Please call init() first"
  | some _ => .ok ⟨contractAddr⟩

/-- internalResolveNftContract: an explicit truthy contractAddr yields a
fresh call-scoped handle, otherwise the default handle; if neither is
available it throws. -/
def NiftyRent.internalResolveNftContract (self : NiftyRent)
    (contractAddr : Option String) : Except String Contract :=
  let resolved : Except String (Option Contract) :=
    if jsTruthy contractAddr then
      match contractAddr with
      | some a => (self.internalInitNftContract a).map some
      | none => .ok self.defaultNftContract
    else .ok self.defaultNftContract
  match resolved with
  | .error e => .error e
  | .ok none =>
      .error "Please provide contractAddr or set the defaultContractAddr in the config"
  | .ok (some c) => .ok c

/-- The eager rental-proxy binding loop at the end of init: one Map.set
per entry of allowedRentalProxies, in order. -/
def NiftyRent.initContracts (self : NiftyRent) : NiftyRent :=
  { self with
    rentalContracts :=
      self.allowedRentalProxies.foldl
        (fun m proxy => (proxy, Contract.mk proxy) :: m) self.rentalContracts }

/-- init: connect (assumed to succeed, out of scope), build the default
NFT contract handle when a truthy defaultContractAddr is configured, then
eagerly bind every allowed rental proxy. -/
def NiftyRent.init (self : NiftyRent) : Except String NiftyRent :=
  let s1 : NiftyRent := { self with nearApi := some () }
  let dres : Except String (Option Contract) :=
    if jsTruthy self.defaultContractAddr then
      match self.defaultContractAddr with
      | some addr => (s1.internalInitNftContract addr).map some
      | none => .ok s1.defaultNftContract
    else .ok s1.defaultNftContract
  dres.map (fun d => NiftyRent.initContracts { s1 with defaultNftContract := d })

/-- The outcome of one resolution call: the promise result, the remote
view queries issued during the call, and the resolver state afterwards. -/
structure Outcome (α : Type) where
  result : Except String α
  queries : List Query
  state : NiftyRent

/-- is_rented from src/index.ts: resolve the NFT contract, fetch the
token, then evaluate the JS expression
(token.owner_id in this.allowedRentalProxies). -/
def NiftyRent.is_rented (self : NiftyRent) (chain : Chain) (tokenId : String)
    (contractAddr : Option String) : Outcome Bool :=
  match self.internalResolveNftContract contractAddr with
  | .error e => ⟨.error e, [], self⟩
  | .ok nftContract =>
    match chain.nftToken nftContract.contractId tokenId with
    | .error e => ⟨.error e, [Query.nftToken nftContract.contractId tokenId], self⟩
    | .ok token =>
      ⟨.ok (jsArrayIn token.owner_id self.allowedRentalProxies),
       [Query.nftToken nftContract.contractId tokenId], self⟩

/-- get_current_user from src/index.ts: resolve the NFT contract, fetch
the token; a nominal owner outside allowedRentalProxies is returned
directly; otherwise the bound rental contract for that owner is looked up
(throwing if absent) and its reported borrower is returned verbatim. -/
def NiftyRent.get_current_user (self : NiftyRent) (chain : Chain) (tokenId : String)
    (contractAddr : Option String) : Outcome (Option String) :=
  match self.internalResolveNftContract contractAddr with
  | .error e => ⟨.error e, [], self⟩
  | .ok nftContract =>
    match chain.nftToken nftContract.contractId tokenId with
    | .error e => ⟨.error e, [Query.nftToken nftContract.contractId tokenId], self⟩
    | .ok token =>
      if !(self.allowedRentalProxies.contains token.owner_id) then
        ⟨.ok (some token.owner_id), [Query.nftToken nftContract.contractId tokenId], self⟩
      else
        match self.rentalContracts.lookup token.owner_id with
        | none =>
          ⟨.error "rental contract not initialised",
           [Query.nftToken nftContract.contractId tokenId], self⟩
        | some rentalContract =>
          match chain.getBorrower rentalContract.contractId nftContract.contractId tokenId with
          | .error e =>
            ⟨.error e,
             [Query.nftToken nftContract.contractId tokenId,
              Query.getBorrower rentalContract.contractId nftContract.contractId tokenId],
             self⟩
          | .ok borrower =>
            ⟨.ok borrower,
             [Query.nftToken nftContract.contractId tokenId,
              Query.getBorrower rentalContract.contractId nftContract.contractId tokenId],
             self⟩

/-- is_current_user from src/index.ts: await get_current_user and compare
its value with the user by JS strict equality (null/undefined never
equals a string). -/
def NiftyRent.is_current_user (self : NiftyRent) (chain : Chain)
    (user tokenId : String) (contractAddr : Option String) : Outcome Bool :=
  let o := self.get_current_user chain tokenId contractAddr
  match o.result with
  | .error e => ⟨.error e, o.queries, o.state⟩
  | .ok v => ⟨.ok (v == some user), o.queries, o.state⟩

/-- The raw thrown strings the spec groups as ConfigurationError: missing
initialisation, no resolvable contract address, and a trusted proxy
without an eagerly built binding. -/
def isConfigurationError (e : String) : Bool :=
  e == "Please call init() first" ||
  e == "Please provide contractAddr or set the defaultContractAddr in the config" ||
  e == "rental contract not initialised"

/-! Concrete fixtures used by counterexamples and witnesses.  testState is
the state of a testnet resolver after a successful init with a configured
default NFT contract address. -/

def testState : NiftyRent :=
  { networkId := "testnet"
    rpcNodeUrl := "https://rpc.testnet.near.org"
    defaultContractAddr := some "nft.example.testnet"
    allowedRentalProxies := ["nft-rental.testnet"]
    nearApi := some ()
    defaultNftContract := some ⟨"nft.example.testnet"⟩
    rentalContracts := [("nft-rental.testnet", ⟨"nft-rental.testnet"⟩)] }

/-- testState is reachable: it is exactly what init produces from the
constructor given the default testnet config plus a default contract. -/
theorem testState_reachable :
    NiftyRent.init (mkNiftyRent { defaultContractAddr := some "nft.example.testnet" }) =
      .ok testState := by
  rfl

/-- A chain on which every token is held by the testnet rental proxy and
leased to alice. -/
def testChainRented : Chain :=
  { nftToken := fun _ _ => .ok ⟨"nft-rental.testnet"⟩
    getBorrower := fun _ _ _ => .ok (some "alice.testnet") }

/-- A chain on which every token has nominal owner "0", an account name
that collides with an array index key. -/
def chainOwnerZero : Chain :=
  { nftToken := fun _ _ => .ok ⟨"0"⟩
    getBorrower := fun _ _ _ => .ok none }

/-- A mainnet resolver state after init with a default NFT contract. -/
def mainState : NiftyRent :=
  { networkId := "mainnet"
    rpcNodeUrl := "https://rpc.mainnet.near.org"
    defaultContractAddr := some "nft.example.near"
    allowedRentalProxies := ["nft-rental.near"]
    nearApi := some ()
    defaultNftContract := some ⟨"nft.example.near"⟩
    rentalContracts := [("nft-rental.near", ⟨"nft-rental.near"⟩)] }

/-- A chain on which every token is held by the mainnet rental proxy and
leased to bob. -/
def mainChainRented : Chain :=
  { nftToken := fun _ _ => .ok ⟨"nft-rental.near"⟩
    getBorrower := fun _ _ _ => .ok (some "bob.near") }

/-- A chain on which every token has nominal owner "rental.near", a strict
substring of the configured proxy "nft-rental.near". -/
def mainChainSubstring : Chain :=
  { nftToken := fun _ _ => .ok ⟨"rental.near"⟩
    getBorrower := fun _ _ _ => .ok (some "bob.near") }

/-- C1: evaluation of the code at the failing input.  On a chain where the
fetched owner_id "nft-rental.testnet" is a member of allowedRentalProxies,
is_rented returns false, not true as the claim states, because JS
(owner_id in array) tests the property keys of the array object rather
than membership.  The query trace confirms the secondary part of the
claim: only the token fetch is issued, never the borrower fetch. -/
theorem is_rented_false_on_proxy_held_token :
    "nft-rental.testnet" ∈ testState.allowedRentalProxies ∧
    (testState.is_rented testChainRented "token1" none).result = .ok false ∧
    (testState.is_rented testChainRented "token1" none).queries =
      [Query.nftToken "nft.example.testnet" "token1"] :=
  ⟨by decide, rfl, rfl⟩

/-- C2: evaluation of the code at the failing input.  The owner_id "0" is
not a member of allowedRentalProxies, and get_current_user duly returns
it, but is_rented returns true rather than false: "0" is a property key
(the index) of the one-element proxies array, so the JS `in` operator
answers true. -/
theorem is_rented_true_on_nonmember_owner :
    "0" ∉ testState.allowedRentalProxies ∧
    (testState.get_current_user chainOwnerZero "token1" none).result = .ok (some "0") ∧
    (testState.is_rented chainOwnerZero "token1" none).result = .ok true :=
  ⟨by decide, rfl, rfl⟩

/-- C7: evaluation of the code at the failing input.  In get_current_user
the membership test is exact: the owner equal to the configured proxy
"nft-rental.near" is routed to the proxy and the borrower is returned,
while the strict substring owner "rental.near" is not matched and is
returned as a plain owner.  In is_rented, however, the test is not exact
string equality against the entries: the owner equal to the entry
"nft-rental.near" yields false. -/
theorem membership_test_not_exact_in_is_rented :
    "nft-rental.near" ∈ mainState.allowedRentalProxies ∧
    (mainState.get_current_user mainChainRented "token1" none).result =
      .ok (some "bob.near") ∧
    (mainState.get_current_user mainChainSubstring "token1" none).result =
      .ok (some "rental.near") ∧
    (mainState.is_rented mainChainRented "token1" none).result = .ok false :=
  ⟨by decide, rfl, rfl, rfl⟩

/-- C3: whenever the NFT contract resolves, the token fetch succeeds, the
fetched owner_id is a member of allowedRentalProxies and is bound in
rentalContracts, and the borrower fetch of that binding succeeds with
value b, get_current_user returns exactly b — verbatim, including b =
none (the proxy reporting no borrower), never the nominal owner. -/
theorem get_current_user_returns_borrower_verbatim
    (s : NiftyRent) (ch : Chain) (tokenId : String) (addr : Option String)
    (nftC : Contract) (tok : TokenRecord) (rc : Contract) (b : Option String)
    (h1 : s.internalResolveNftContract addr = .ok nftC)
    (h2 : ch.nftToken nftC.contractId tokenId = .ok tok)
    (h3 : tok.owner_id ∈ s.allowedRentalProxies)
    (h4 : s.rentalContracts.lookup tok.owner_id = some rc)
    (h5 : ch.getBorrower rc.contractId nftC.contractId tokenId = .ok b) :
    (s.get_current_user ch tokenId addr).result = .ok b := by
  have hc : s.allowedRentalProxies.contains tok.owner_id = true :=
    List.elem_eq_true_of_mem h3
  simp [NiftyRent.get_current_user, h1, h2, hc, h3, h4, h5]

/-- C3 witness: a proxy that reports no borrower; get_current_user yields
the absent value, not the proxy owner. -/
def chainRentedNoBorrower : Chain :=
  { nftToken := fun _ _ => .ok ⟨"nft-rental.testnet"⟩
    getBorrower := fun _ _ _ => .ok none }

theorem get_current_user_returns_borrower_verbatim_witness :
    (testState.get_current_user chainRentedNoBorrower "token1" none).result = .ok none :=
  get_current_user_returns_borrower_verbatim testState chainRentedNoBorrower "token1" none
    ⟨"nft.example.testnet"⟩ ⟨"nft-rental.testnet"⟩ ⟨"nft-rental.testnet"⟩ none
    rfl rfl (by decide) rfl rfl

/-- C4: is_current_user is exactly the strict-equality comparison of the
get_current_user value with the user: its result is the image of the
get_current_user result under (v == some user), so an ok value yields
true iff that value is the string user (exact equality, an absent value
never matching), and an error is propagated unchanged; the query trace is
that of get_current_user. -/
theorem is_current_user_eq_get_current_user_comparison
    (s : NiftyRent) (ch : Chain) (user tokenId : String) (addr : Option String) :
    (s.is_current_user ch user tokenId addr).result =
      (s.get_current_user ch tokenId addr).result.map (fun v => v == some user) ∧
    ((s.is_current_user ch user tokenId addr).result = .ok true ↔
      (s.get_current_user ch tokenId addr).result = .ok (some user)) ∧
    (∀ e, (s.get_current_user ch tokenId addr).result = .error e →
      (s.is_current_user ch user tokenId addr).result = .error e) ∧
    (s.is_current_user ch user tokenId addr).queries =
      (s.get_current_user ch tokenId addr).queries := by
  unfold NiftyRent.is_current_user
  cases h : (s.get_current_user ch tokenId addr).result with
  | error e => simp [h, Except.map]
  | ok v => simp [h, Except.map]

/-! Helper lemmas shared by several theorems below. -/

/-- When the NFT contract cannot be resolved, every resolution operation
returns that error without issuing any remote query and without touching
the state. -/
lemma resolve_error_outcomes (s : NiftyRent) (ch : Chain) (user tokenId : String)
    (addr : Option String) (e : String)
    (h : s.internalResolveNftContract addr = .error e) :
    s.is_rented ch tokenId addr = ⟨.error e, [], s⟩ ∧
    s.get_current_user ch tokenId addr = ⟨.error e, [], s⟩ ∧
    s.is_current_user ch user tokenId addr = ⟨.error e, [], s⟩ := by
  have hg : s.get_current_user ch tokenId addr = ⟨.error e, [], s⟩ := by
    simp [NiftyRent.get_current_user, h]
  refine ⟨by simp [NiftyRent.is_rented, h], hg, ?_⟩
  simp [NiftyRent.is_current_user, hg]

/-- Before init (nearApi and defaultNftContract both unset) the NFT
contract never resolves, whatever contractAddr is passed, and the thrown
string is one of the configuration errors. -/
lemma resolve_fails_before_init (s : NiftyRent) (addr : Option String)
    (hn : s.nearApi = none) (hd : s.defaultNftContract = none) :
    ∃ e, isConfigurationError e = true ∧ s.internalResolveNftContract addr = .error e := by
  by_cases ht : jsTruthy addr = true
  · cases addr with
    | none => simp [jsTruthy] at ht
    | some a =>
      exact ⟨"Please call init() first", by decide,
        by simp [NiftyRent.internalResolveNftContract,
                 NiftyRent.internalInitNftContract, ht, hn, Except.map]⟩
  · rw [Bool.not_eq_true] at ht
    exact ⟨"Please provide contractAddr or set the defaultContractAddr in the config",
      by decide, by simp [NiftyRent.internalResolveNftContract, ht, hd]⟩

/-- With no default NFT contract and no contractAddr argument, resolution
throws the no-address configuration error. -/
lemma resolve_fails_no_default (s : NiftyRent) (hd : s.defaultNftContract = none) :
    s.internalResolveNftContract none =
      .error "Please provide contractAddr or set the defaultContractAddr in the config" := by
  simp [NiftyRent.internalResolveNftContract, jsTruthy, hd]

/-- Shape of a successful init: the state is initContracts applied to the
input with nearApi set and defaultNftContract possibly rebuilt; when the
configured default address is falsy, defaultNftContract is untouched. -/
lemma init_ok_shape (s0 s : NiftyRent) (h : NiftyRent.init s0 = .ok s) :
    ∃ d : Option Contract,
      s = NiftyRent.initContracts { s0 with nearApi := some (), defaultNftContract := d } ∧
      (jsTruthy s0.defaultContractAddr = false → d = s0.defaultNftContract) := by
  by_cases ht : jsTruthy s0.defaultContractAddr = true
  · cases hd : s0.defaultContractAddr with
    | none => rw [hd] at ht; simp [jsTruthy] at ht
    | some a =>
      rw [hd] at ht
      simp [NiftyRent.init, NiftyRent.internalInitNftContract, hd, ht, Except.map] at h
      exact ⟨some ⟨a⟩, h.symm, fun hf => by rw [ht] at hf; simp at hf⟩
  · rw [Bool.not_eq_true] at ht
    simp [NiftyRent.init, ht, Except.map] at h
    exact ⟨s0.defaultNftContract, h.symm, fun _ => rfl⟩

/-- After folding the eager binding loop over the proxies, every proxy of
the list (and every key already correctly bound) looks up to its own
handle. -/
lemma lookup_foldl_cons (p : String) (l : List String) :
    ∀ m0 : List (String × Contract),
      p ∈ l ∨ m0.lookup p = some (Contract.mk p) →
      ((l.foldl (fun m proxy => (proxy, Contract.mk proxy) :: m) m0).lookup p
        = some (Contract.mk p)) := by
  induction l with
  | nil =>
    intro m0 h
    rcases h with h | h
    · cases h
    · simpa using h
  | cons a l ih =>
    intro m0 h
    simp only [List.foldl_cons]
    apply ih
    by_cases hpa : p = a
    · subst hpa
      by_cases hpl : p ∈ l
      · exact Or.inl hpl
      · right
        simp [List.lookup_cons]
    · rcases h with h | h
      · rcases List.mem_cons.mp h with h1 | h1
        · exact absurd h1 hpa
        · exact Or.inl h1
      · right
        have hb : (p == a) = false := beq_eq_false_iff_ne.mpr hpa
        rw [List.lookup_cons]
        simpa [hb] using h

/-- The proxy-held branch of get_current_user: with a resolvable contract,
a fetched token whose owner is a trusted proxy, and a binding for that
owner, the outcome is exactly the borrower fetch on that binding, after
both remote queries, with the state untouched. -/
lemma get_current_user_proxy_branch
    (s : NiftyRent) (ch : Chain) (tokenId : String) (addr : Option String)
    (nftC : Contract) (tok : TokenRecord) (rc : Contract)
    (h1 : s.internalResolveNftContract addr = .ok nftC)
    (h2 : ch.nftToken nftC.contractId tokenId = .ok tok)
    (h3 : tok.owner_id ∈ s.allowedRentalProxies)
    (h4 : s.rentalContracts.lookup tok.owner_id = some rc) :
    s.get_current_user ch tokenId addr =
      ⟨ch.getBorrower rc.contractId nftC.contractId tokenId,
       [Query.nftToken nftC.contractId tokenId,
        Query.getBorrower rc.contractId nftC.contractId tokenId], s⟩ := by
  have hc : s.allowedRentalProxies.contains tok.owner_id = true :=
    List.elem_eq_true_of_mem h3
  cases hb : ch.getBorrower rc.contractId nftC.contractId tokenId with
  | error e => simp [NiftyRent.get_current_user, h1, h2, hc, h3, h4, hb]
  | ok b => simp [NiftyRent.get_current_user, h1, h2, hc, h3, h4, hb]

/-- C5: on a freshly constructed resolver (init not yet run), or on an
initialised resolver configured without a default contract address and
called without an explicit one, each of the three resolution operations
fails with one of the configuration-error strings and issues zero remote
queries. -/
theorem resolution_config_error_no_queries
    (c : Config) (s : NiftyRent) (ch : Chain) (user tokenId : String) (addr : Option String)
    (h : s = mkNiftyRent c ∨
      (NiftyRent.init (mkNiftyRent c) = .ok s ∧ c.defaultContractAddr = none ∧ addr = none)) :
    (∃ e, isConfigurationError e = true ∧
      (s.is_rented ch tokenId addr).result = .error e ∧
      (s.is_rented ch tokenId addr).queries = []) ∧
    (∃ e, isConfigurationError e = true ∧
      (s.get_current_user ch tokenId addr).result = .error e ∧
      (s.get_current_user ch tokenId addr).queries = []) ∧
    (∃ e, isConfigurationError e = true ∧
      (s.is_current_user ch user tokenId addr).result = .error e ∧
      (s.is_current_user ch user tokenId addr).queries = []) := by
  obtain ⟨e, he, hres⟩ :
      ∃ e, isConfigurationError e = true ∧ s.internalResolveNftContract addr = .error e := by
    rcases h with rfl | ⟨hinit, hc0, rfl⟩
    · exact resolve_fails_before_init _ addr rfl rfl
    · obtain ⟨d, rfl, hkeep⟩ := init_ok_shape _ _ hinit
      have hfalsy : jsTruthy (mkNiftyRent c).defaultContractAddr = false := by
        have : (mkNiftyRent c).defaultContractAddr = none := hc0
        rw [this]; rfl
      have hd : d = none := (hkeep hfalsy).trans rfl
      subst hd
      exact ⟨_, by decide, resolve_fails_no_default _ rfl⟩
  obtain ⟨h1, h2, h3⟩ := resolve_error_outcomes s ch user tokenId addr e hres
  exact ⟨⟨e, he, by rw [h1], by rw [h1]⟩,
         ⟨e, he, by rw [h2], by rw [h2]⟩,
         ⟨e, he, by rw [h3], by rw [h3]⟩⟩

theorem resolution_config_error_no_queries_witness :
    (∃ e, isConfigurationError e = true ∧
      ((mkNiftyRent {}).is_rented testChainRented "token1" none).result = .error e ∧
      ((mkNiftyRent {}).is_rented testChainRented "token1" none).queries = []) ∧
    (∃ e, isConfigurationError e = true ∧
      ((mkNiftyRent {}).get_current_user testChainRented "token1" none).result = .error e ∧
      ((mkNiftyRent {}).get_current_user testChainRented "token1" none).queries = []) ∧
    (∃ e, isConfigurationError e = true ∧
      ((mkNiftyRent {}).is_current_user testChainRented "alice.testnet" "token1" none).result
        = .error e ∧
      ((mkNiftyRent {}).is_current_user testChainRented "alice.testnet" "token1" none).queries
        = []) :=
  resolution_config_error_no_queries {} (mkNiftyRent {}) testChainRented
    "alice.testnet" "token1" none (Or.inl rfl)

/-- C6: a fetched owner that is a member of allowedRentalProxies but has
no binding in rentalContracts makes get_current_user throw the
missing-binding configuration error instead of returning the proxy
address as an owner. -/
theorem get_current_user_missing_binding_fails
    (s : NiftyRent) (ch : Chain) (tokenId : String) (addr : Option String)
    (nftC : Contract) (tok : TokenRecord)
    (h1 : s.internalResolveNftContract addr = .ok nftC)
    (h2 : ch.nftToken nftC.contractId tokenId = .ok tok)
    (h3 : tok.owner_id ∈ s.allowedRentalProxies)
    (h4 : s.rentalContracts.lookup tok.owner_id = none) :
    (s.get_current_user ch tokenId addr).result = .error "rental contract not initialised" ∧
    isConfigurationError "rental contract not initialised" = true := by
  have hc : s.allowedRentalProxies.contains tok.owner_id = true :=
    List.elem_eq_true_of_mem h3
  exact ⟨by simp [NiftyRent.get_current_user, h1, h2, hc, h3, h4], by decide⟩

/-- A state like testState whose eager proxy bindings are missing. -/
def uninitMapState : NiftyRent :=
  { testState with rentalContracts := [] }

theorem get_current_user_missing_binding_fails_witness :
    (uninitMapState.get_current_user testChainRented "token1" none).result =
      .error "rental contract not initialised" ∧
    isConfigurationError "rental contract not initialised" = true :=
  get_current_user_missing_binding_fails uninitMapState testChainRented "token1" none
    ⟨"nft.example.testnet"⟩ ⟨"nft-rental.testnet"⟩ rfl rfl (by decide) rfl

/-- C8: a failing remote query aborts the whole operation with that very
error: a failing token fetch makes all three operations fail with it, and
a failing borrower fetch makes get_current_user and is_current_user fail
with it — never falling back to the nominal owner or any default. -/
theorem remote_query_failure_propagates
    (s : NiftyRent) (ch : Chain) (user tokenId : String) (addr : Option String) :
    (∀ nftC e, s.internalResolveNftContract addr = .ok nftC →
      ch.nftToken nftC.contractId tokenId = .error e →
      (s.is_rented ch tokenId addr).result = .error e ∧
      (s.get_current_user ch tokenId addr).result = .error e ∧
      (s.is_current_user ch user tokenId addr).result = .error e) ∧
    (∀ nftC tok rc e, s.internalResolveNftContract addr = .ok nftC →
      ch.nftToken nftC.contractId tokenId = .ok tok →
      tok.owner_id ∈ s.allowedRentalProxies →
      s.rentalContracts.lookup tok.owner_id = some rc →
      ch.getBorrower rc.contractId nftC.contractId tokenId = .error e →
      (s.get_current_user ch tokenId addr).result = .error e ∧
      (s.is_current_user ch user tokenId addr).result = .error e) := by
  constructor
  · intro nftC e h1 h2
    have hg : (s.get_current_user ch tokenId addr).result = .error e := by
      simp [NiftyRent.get_current_user, h1, h2]
    refine ⟨by simp [NiftyRent.is_rented, h1, h2], hg, ?_⟩
    simp [NiftyRent.is_current_user, hg]
  · intro nftC tok rc e h1 h2 h3 h4 h5
    have hg : (s.get_current_user ch tokenId addr).result = .error e := by
      rw [get_current_user_proxy_branch s ch tokenId addr nftC tok rc h1 h2 h3 h4]
      exact h5
    exact ⟨hg, by simp [NiftyRent.is_current_user, hg]⟩

/-- A chain whose token fetch fails. -/
def failTokenChain : Chain :=
  { nftToken := fun _ _ => .error "rpc request failed"
    getBorrower := fun _ _ _ => .ok none }

/-- A chain whose borrower fetch fails on a proxy-held token. -/
def failBorrowerChain : Chain :=
  { nftToken := fun _ _ => .ok ⟨"nft-rental.testnet"⟩
    getBorrower := fun _ _ _ => .error "proxy request failed" }

theorem remote_query_failure_propagates_witness :
    ((testState.is_rented failTokenChain "token1" none).result = .error "rpc request failed" ∧
     (testState.get_current_user failTokenChain "token1" none).result =
       .error "rpc request failed" ∧
     (testState.is_current_user failTokenChain "alice.testnet" "token1" none).result =
       .error "rpc request failed") ∧
    ((testState.get_current_user failBorrowerChain "token1" none).result =
       .error "proxy request failed" ∧
     (testState.is_current_user failBorrowerChain "alice.testnet" "token1" none).result =
       .error "proxy request failed") :=
  ⟨(remote_query_failure_propagates testState failTokenChain "alice.testnet" "token1" none).1
      ⟨"nft.example.testnet"⟩ "rpc request failed" rfl rfl,
   (remote_query_failure_propagates testState failBorrowerChain "alice.testnet" "token1" none).2
      ⟨"nft.example.testnet"⟩ ⟨"nft-rental.testnet"⟩ ⟨"nft-rental.testnet"⟩
      "proxy request failed" rfl rfl (by decide) rfl rfl⟩

/-- C9: after a successful init, every account in allowedRentalProxies is
bound in rentalContracts (to its own handle), and consequently on such a
state the missing-binding branch of get_current_user is never taken: for
a resolvable contract and a fetched token whose owner is a trusted proxy,
the result is exactly the outcome of the borrower fetch on that proxy. -/
theorem init_binds_every_proxy (s0 s : NiftyRent) (h : NiftyRent.init s0 = .ok s) :
    (∀ p ∈ s.allowedRentalProxies, s.rentalContracts.lookup p = some (Contract.mk p)) ∧
    (∀ (ch : Chain) (tokenId : String) (addr : Option String)
        (nftC : Contract) (tok : TokenRecord),
      s.internalResolveNftContract addr = .ok nftC →
      ch.nftToken nftC.contractId tokenId = .ok tok →
      tok.owner_id ∈ s.allowedRentalProxies →
      (s.get_current_user ch tokenId addr).result =
        ch.getBorrower tok.owner_id nftC.contractId tokenId) := by
  obtain ⟨d, rfl, -⟩ := init_ok_shape s0 s h
  have hbind : ∀ p ∈ (NiftyRent.initContracts
        { s0 with nearApi := some (), defaultNftContract := d }).allowedRentalProxies,
      (NiftyRent.initContracts
        { s0 with nearApi := some (), defaultNftContract := d }).rentalContracts.lookup p
        = some (Contract.mk p) := by
    intro p hp
    exact lookup_foldl_cons p _ _ (Or.inl hp)
  refine ⟨hbind, ?_⟩
  intro ch tokenId addr nftC tok h1 h2 h3
  rw [get_current_user_proxy_branch _ ch tokenId addr nftC tok (Contract.mk tok.owner_id)
    h1 h2 h3 (hbind _ h3)]

/-- The state produced by init from the default testnet configuration. -/
def initState : NiftyRent :=
  { networkId := "testnet"
    rpcNodeUrl := "https://rpc.testnet.near.org"
    defaultContractAddr := none
    allowedRentalProxies := ["nft-rental.testnet"]
    nearApi := some ()
    defaultNftContract := none
    rentalContracts := [("nft-rental.testnet", ⟨"nft-rental.testnet"⟩)] }

theorem init_binds_every_proxy_witness :
    initState.rentalContracts.lookup "nft-rental.testnet" =
      some (Contract.mk "nft-rental.testnet") ∧
    (initState.get_current_user testChainRented "token1" (some "nft.example.testnet")).result =
      .ok (some "alice.testnet") := by
  have h := init_binds_every_proxy (mkNiftyRent {}) initState rfl
  refine ⟨h.1 _ (by decide), ?_⟩
  rw [h.2 testChainRented "token1" (some "nft.example.testnet")
    ⟨"nft.example.testnet"⟩ ⟨"nft-rental.testnet"⟩ rfl rfl (by decide)]
  rfl

/-- C10: no resolution operation mutates the resolver state: the state
after any is_rented, get_current_user or is_current_user call, successful
or failed, with or without an explicit contractAddr, is the input state,
every field included. -/
theorem resolution_preserves_state
    (s : NiftyRent) (ch : Chain) (user tokenId : String) (addr : Option String) :
    (s.is_rented ch tokenId addr).state = s ∧
    (s.get_current_user ch tokenId addr).state = s ∧
    (s.is_current_user ch user tokenId addr).state = s := by
  have hg : (s.get_current_user ch tokenId addr).state = s := by
    unfold NiftyRent.get_current_user
    repeat' split
    all_goals rfl
  have hr : (s.is_rented ch tokenId addr).state = s := by
    unfold NiftyRent.is_rented
    repeat' split
    all_goals rfl
  have hi : (s.is_current_user ch user tokenId addr).state = s := by
    cases hres : (s.get_current_user ch tokenId addr).result with
    | error e => simp [NiftyRent.is_current_user, hres, hg]
    | ok v => simp [NiftyRent.is_current_user, hres, hg]
  exact ⟨hr, hg, hi⟩

end NiftyRentSdk
